import Mathlib

/-!
Verification of the mrl91/loadbalancer routing and admission engine.

The Rust source is embedded shallowly:
* `RateLimiter.check` mirrors `src/rate_limiter.rs` (`HashMap<String,(u32,Instant)>`
  becomes a unique-key association list, `Instant` becomes a `Nat` timestamp in
  seconds; `duration_since` becomes truncated `Nat` subtraction, matching the
  monotonic use in the source).
* `selectNextServer` mirrors `select_next_server` in `src/proxy_handler.rs`.
* `buildOutboundRequest` and `proxyRequest` mirror `proxy_request` in
  `src/proxy_handler.rs`; the fallibility of `Request::builder` (invalid URI)
  and of the outbound transport are passed in as oracles, since both live in
  the hyper library.
* `checkHealth` and `healthCheckPass` mirror `UpstreamServer::check_health`
  and one pass of `health_check_loop` in `src/upstream.rs`; a `.expect` panic
  is an `Except.error`.
-/

namespace LoadBalancer

/-- Embeds `RateLimiter` from `src/rate_limiter.rs`: window length in seconds
and the per-window request cap. The `u32` count never overflows because the
source only increments a count that is strictly below `max_requests`. -/
structure RateLimiter where
  window : Nat
  maxRequests : Nat
deriving DecidableEq

/-- One rate-limit entry `(count, window_start)`, the Rust `(u32, Instant)`. -/
abbrev Entry := Nat × Nat

/-- The `HashMap<String, (u32, Instant)>` as an association list with unique
keys (the map is only reached through `lookupEntry`/`setEntry`). -/
abbrev RequestMap := List (String × Entry)

/-- Lookup in the request map, the read half of `requests.entry(ip)`. -/
def lookupEntry : RequestMap → String → Option Entry
  | [], _ => none
  | p :: rest, ip => if p.1 = ip then some p.2 else lookupEntry rest ip

/-- Write-back into the request map: replace the entry for `ip` in place, or
append it, the write half of `requests.entry(ip)` followed by mutation. -/
def setEntry : RequestMap → String → Entry → RequestMap
  | [], ip, e => [(ip, e)]
  | p :: rest, ip, e => if p.1 = ip then (ip, e) :: rest else p :: setEntry rest ip e

/-- Embeds `RateLimiter::check` from `src/rate_limiter.rs`.
`entry(ip).or_insert((0, current_time))` defaults a missing entry to
`(0, now)`; then the source resets on `now - window_start > window`,
increments while `count < max_requests`, and denies otherwise. Returns
the admit decision together with the updated map. -/
def RateLimiter.check (rl : RateLimiter) (m : RequestMap) (ip : String) (now : Nat) :
    Bool × RequestMap :=
  let entry := (lookupEntry m ip).getD (0, now)
  if now - entry.2 > rl.window then
    (true, setEntry m ip (1, now))
  else if entry.1 < rl.maxRequests then
    (true, setEntry m ip (entry.1 + 1, entry.2))
  else
    (false, setEntry m ip entry)

/-- Folds `RateLimiter.check` over a sequence of `(key, time)` calls,
keeping only the map (the sequencing of many requests through the mutex). -/
def runChecks (rl : RateLimiter) : List (String × Nat) → RequestMap → RequestMap
  | [], m => m
  | c :: rest, m => runChecks rl rest (rl.check m c.1 c.2).2

/-- The fixed-window algorithm exactly as the specification words it: a fresh
key gets `{count = 1, window_start = now}` and admits; an expired window
resets to `{count = 1, window_start = now}` and admits; below the cap the
count increments and admits; otherwise deny with the map unchanged. -/
def specCheck (rl : RateLimiter) (m : RequestMap) (ip : String) (now : Nat) :
    Bool × RequestMap :=
  match lookupEntry m ip with
  | none => (true, setEntry m ip (1, now))
  | some e =>
    if now - e.2 > rl.window then
      (true, setEntry m ip (1, now))
    else if e.1 < rl.maxRequests then
      (true, setEntry m ip (e.1 + 1, e.2))
    else
      (false, m)

theorem lookupEntry_mem {m : RequestMap} {k : String} {e : Entry}
    (h : lookupEntry m k = some e) : (k, e) ∈ m := by
  induction m with
  | nil => simp [lookupEntry] at h
  | cons p rest ih =>
    obtain ⟨p1, p2⟩ := p
    by_cases hk : p1 = k
    · simp [lookupEntry, hk] at h
      rw [← hk, ← h]
      exact List.mem_cons_self _ _
    · simp [lookupEntry, hk] at h
      exact List.mem_cons_of_mem _ (ih h)

theorem mem_setEntry {m : RequestMap} {ip : String} {e : Entry} {q : String × Entry}
    (h : q ∈ setEntry m ip e) : q ∈ m ∨ q = (ip, e) := by
  induction m with
  | nil =>
    right
    simpa [setEntry] using h
  | cons p rest ih =>
    by_cases hk : p.1 = ip
    · simp [setEntry, hk] at h
      rcases h with h | h
      · right; exact h
      · left; exact List.mem_cons_of_mem _ h
    · simp [setEntry, hk] at h
      rcases h with h | h
      · left; exact h ▸ List.mem_cons_self _ _
      · rcases ih h with h2 | h2
        · left; exact List.mem_cons_of_mem _ h2
        · right; exact h2

theorem setEntry_lookup_self {m : RequestMap} {ip : String} {e : Entry}
    (h : lookupEntry m ip = some e) : setEntry m ip e = m := by
  induction m with
  | nil => simp [lookupEntry] at h
  | cons p rest ih =>
    obtain ⟨p1, p2⟩ := p
    by_cases hk : p1 = ip
    · simp [lookupEntry, hk] at h
      simp [setEntry, hk, ← h]
    · simp [lookupEntry, hk] at h
      simp [setEntry, hk, ih h]

theorem check_preserves_bound (rl : RateLimiter) (h1 : 1 ≤ rl.maxRequests)
    {m : RequestMap} (hb : ∀ p ∈ m, p.2.1 ≤ rl.maxRequests) (ip : String) (now : Nat) :
    ∀ p ∈ (rl.check m ip now).2, p.2.1 ≤ rl.maxRequests := by
  intro p hp
  have hentry : ((lookupEntry m ip).getD (0, now)).1 ≤ rl.maxRequests := by
    cases hl : lookupEntry m ip with
    | none => simp [hl]
    | some e =>
      have := hb (ip, e) (lookupEntry_mem hl)
      simpa [hl] using this
  unfold RateLimiter.check at hp
  by_cases hw : now - ((lookupEntry m ip).getD (0, now)).2 > rl.window
  · simp [hw] at hp
    rcases mem_setEntry hp with h | h
    · exact hb p h
    · rw [h]; exact h1
  · by_cases hc : ((lookupEntry m ip).getD (0, now)).1 < rl.maxRequests
    · simp [hw, hc] at hp
      rcases mem_setEntry hp with h | h
      · exact hb p h
      · rw [h]; exact hc
    · simp [hw, hc] at hp
      rcases mem_setEntry hp with h | h
      · exact hb p h
      · rw [h]; exact hentry

theorem runChecks_bounded (rl : RateLimiter) (h1 : 1 ≤ rl.maxRequests) :
    ∀ (calls : List (String × Nat)) (m : RequestMap),
      (∀ p ∈ m, p.2.1 ≤ rl.maxRequests) →
      ∀ p ∈ runChecks rl calls m, p.2.1 ≤ rl.maxRequests := by
  intro calls
  induction calls with
  | nil => intro m hb; simpa [runChecks] using hb
  | cons c rest ih =>
    intro m hb
    simpa [runChecks] using ih _ (check_preserves_bound rl h1 hb c.1 c.2)

/-- Claim C1, counterexample: with `max_requests = 0` the very first check for
a fresh key is denied and the created entry has `count = 0`, not the
`count = 1`-and-admit the claim states for every configured `max_requests`. -/
theorem C1_counterexample :
    RateLimiter.check ⟨60, 0⟩ [] "A" 5 = (false, [("A", (0, 5))]) := by
  rfl

/-- Claim C1 (amended): provided `max_requests ≥ 1`, `RateLimiter.check`
follows the fixed-window algorithm of the specification exactly — fresh key
admits with `{count = 1, window_start = now}`, an expired window resets and
admits, below the cap it increments and admits, otherwise it denies. With
`max_requests = 0` a fresh key is instead created with `count = 0` and
denied. -/
theorem C1_amended (rl : RateLimiter) (h1 : 1 ≤ rl.maxRequests)
    (m : RequestMap) (ip : String) (now : Nat) :
    rl.check m ip now = specCheck rl m ip now := by
  unfold RateLimiter.check specCheck
  cases hl : lookupEntry m ip with
  | none =>
    have hw : ¬ (now - now > rl.window) := by simp
    simp [hl, hw, Nat.lt_of_lt_of_le Nat.zero_lt_one h1]
  | some e =>
    by_cases hw : now - e.2 > rl.window
    · simp [hl, hw]
    · by_cases hc : e.1 < rl.maxRequests
      · simp [hl, hw, hc]
      · simp [hl, hw, hc, setEntry_lookup_self hl]

/-- Witness for C1: a concrete instance with `max_requests = 100`. -/
theorem C1_witness :
    1 ≤ (RateLimiter.mk 60 100).maxRequests ∧
      RateLimiter.check ⟨60, 100⟩ [] "A" 0 = specCheck ⟨60, 100⟩ [] "A" 0 :=
  ⟨by decide, C1_amended ⟨60, 100⟩ (by decide) [] "A" 0⟩

/-- Claim C7, counterexample: with `window = 5, max_requests = 0`, checking
key `"A"` at time 0 and again at time 6 leaves the entry at
`(count = 1, window_start = 6)`: at time 6 we have `now - window_start = 0 ≤
window` yet `count = 1 > max_requests = 0`, violating the claimed invariant
`count ≤ max_requests` inside the window. -/
theorem C7_counterexample :
    runChecks ⟨5, 0⟩ [("A", 0), ("A", 6)] [] = [("A", (1, 6))] ∧
      ¬ ((1 : Nat) ≤ (RateLimiter.mk 5 0).maxRequests) ∧ 6 - 6 ≤ (RateLimiter.mk 5 0).window := by
  refine ⟨by rfl, by decide, by decide⟩

/-- Claim C7 (amended): provided `max_requests ≥ 1`, every entry produced by
any sequence of checks satisfies `count ≤ max_requests` (in particular
whenever `now - window_start ≤ window`); and whenever a check finds
`now - window_start > window` it resets the entry to
`{count = 1, window_start = now}` and admits. With `max_requests = 0` the
reset path still writes `count = 1`, breaking the bound. -/
theorem C7_amended (rl : RateLimiter) (h1 : 1 ≤ rl.maxRequests) :
    (∀ (calls : List (String × Nat)), ∀ p ∈ runChecks rl calls [],
      p.2.1 ≤ rl.maxRequests) ∧
    (∀ (m : RequestMap) (ip : String) (now c ws : Nat),
      lookupEntry m ip = some (c, ws) → rl.window < now - ws →
      rl.check m ip now = (true, setEntry m ip (1, now))) := by
  constructor
  · intro calls p hp
    exact runChecks_bounded rl h1 calls [] (by simp) p hp
  · intro m ip now c ws hl hw
    unfold RateLimiter.check
    simp [hl, hw]

/-- Witness for C7: concrete rate limiter `window = 5, max_requests = 2` and
the concrete call sequence `A@0, A@1`, whose surviving entry has count 2. -/
theorem C7_witness :
    ("A", ((2, 0) : Entry)).2.1 ≤ (RateLimiter.mk 5 2).maxRequests :=
  (C7_amended ⟨5, 2⟩ (by decide)).1 [("A", 0), ("A", 1)] ("A", (2, 0)) (by decide)

/-- Embeds `UpstreamServer` from `src/upstream.rs`: the URL and the value of
the `is_healthy` flag as observed at the moment of a snapshot read. -/
structure UpstreamServer where
  url : String
  isHealthy : Bool
deriving DecidableEq

/-- The healthy-server collection built inside `select_next_server`: the loop
pushes every server whose `is_healthy` reads `true`, in registry order. -/
def healthyServers (servers : List UpstreamServer) : List UpstreamServer :=
  servers.filter (fun s => s.isHealthy)

/-- Embeds `select_next_server` from `src/proxy_handler.rs`. `nextIndex` is
the value of the global `NEXT_SERVER_INDEX`; the source first clamps it with
`% healthy_servers.len()`, returns the server at that index, then stores
`(index + 1) % healthy_servers.len()`. Returns the selection together with
the new index; the index is untouched when no healthy server exists. -/
def selectNextServer (servers : List UpstreamServer) (nextIndex : Nat) :
    Option UpstreamServer × Nat :=
  let hs := healthyServers servers
  if h : hs = [] then
    (none, nextIndex)
  else
    let i := nextIndex % hs.length
    (some (hs.get ⟨i, Nat.mod_lt _ (List.length_pos.mpr h)⟩), (i + 1) % hs.length)

/-- Runs `n` consecutive selections over a fixed server snapshot, threading
the round-robin index, and collects the chosen servers. -/
def selectRun (servers : List UpstreamServer) : Nat → Nat → List (Option UpstreamServer)
  | _, 0 => []
  | cursor, n + 1 =>
    let r := selectNextServer servers cursor
    r.1 :: selectRun servers r.2 n

/-- Claim C2: `select_next_server` filters the snapshot to healthy servers
preserving registry order (a sublist of the snapshot), returns `none` exactly
when that set is empty, otherwise returns the healthy server at index
`cursor % healthy_count` and advances the index to
`(cursor % healthy_count + 1) % healthy_count`; and 6 consecutive selections
over 3 healthy servers `b0, b1, b2` starting at cursor 0 yield exactly
`b0, b1, b2, b0, b1, b2`. -/
theorem C2_select (servers : List UpstreamServer) (cursor : Nat) :
    ((selectNextServer servers cursor).1 = none ↔ healthyServers servers = []) ∧
    (∀ h : healthyServers servers ≠ [],
      selectNextServer servers cursor =
        (some ((healthyServers servers).get
            ⟨cursor % (healthyServers servers).length,
             Nat.mod_lt _ (List.length_pos.mpr h)⟩),
         (cursor % (healthyServers servers).length + 1) %
           (healthyServers servers).length)) ∧
    List.Sublist (healthyServers servers) servers ∧
    selectRun [⟨"b0", true⟩, ⟨"b1", true⟩, ⟨"b2", true⟩] 0 6 =
      [some ⟨"b0", true⟩, some ⟨"b1", true⟩, some ⟨"b2", true⟩,
       some ⟨"b0", true⟩, some ⟨"b1", true⟩, some ⟨"b2", true⟩] := by
  refine ⟨?_, ?_, List.filter_sublist _, by decide⟩
  · unfold selectNextServer
    by_cases h : healthyServers servers = [] <;> simp [h]
  · intro h
    unfold selectNextServer
    simp [h]

/-- Witness for C2: the concrete 6-selection round-robin sequence, obtained
from the last conjunct of the claim theorem. -/
theorem C2_witness :
    selectRun [⟨"b0", true⟩, ⟨"b1", true⟩, ⟨"b2", true⟩] 0 6 =
      [some ⟨"b0", true⟩, some ⟨"b1", true⟩, some ⟨"b2", true⟩,
       some ⟨"b0", true⟩, some ⟨"b1", true⟩, some ⟨"b2", true⟩] :=
  (C2_select [] 0).2.2.2

/-- Claim C8, counterexample: a reachable scenario in which a selection that
observed an empty healthy set leaves the cursor at 1, violating
`cursor < max 1 healthy_count = 1`. Two healthy servers are selected from
once (cursor moves 0 → 1), then both turn unhealthy and the next selection
returns `none`, leaving the cursor at 1. -/
theorem C8_counterexample :
    ¬ ((selectNextServer [⟨"b0", false⟩, ⟨"b1", false⟩]
          (selectNextServer [⟨"b0", true⟩, ⟨"b1", true⟩] 0).2).2 <
        max 1 (healthyServers [⟨"b0", false⟩, ⟨"b1", false⟩]).length) := by
  decide

/-- Claim C8 (amended): after a selection that observed a nonempty healthy
set the cursor satisfies `0 ≤ cursor < healthy_count`; a selection that
observed an empty healthy set leaves the cursor unchanged, so the claimed
bound `cursor < max 1 healthy_count` can fail in that case. -/
theorem C8_amended (servers : List UpstreamServer) (cursor : Nat) :
    (healthyServers servers ≠ [] →
      (selectNextServer servers cursor).2 < (healthyServers servers).length) ∧
    (healthyServers servers = [] → (selectNextServer servers cursor).2 = cursor) := by
  constructor
  · intro h
    unfold selectNextServer
    simp [h]
    exact Nat.mod_lt _ (List.length_pos.mpr h)
  · intro h
    unfold selectNextServer
    simp [h]

/-- Witness for C8: one healthy server, cursor 5; after selection the cursor
is strictly below the healthy count 1. -/
theorem C8_witness :
    (selectNextServer [⟨"b0", true⟩] 5).2 < (healthyServers [⟨"b0", true⟩]).length :=
  (C8_amended [⟨"b0", true⟩] 5).1 (by decide)

/-- An incoming HTTP request as `proxy_request` observes it: method,
optional path-and-query, the header list in order, and the body. -/
structure HttpRequest where
  method : String
  pathAndQuery : Option String
  headers : List (String × String)
  body : String
deriving DecidableEq

/-- An HTTP response: status code and body. -/
structure HttpResponse where
  status : Nat
  body : String
deriving DecidableEq

/-- The outbound request assembled by `Request::builder()` inside
`proxy_request`: method, URI string, header list, body. -/
structure OutboundRequest where
  method : String
  uri : String
  headers : List (String × String)
  body : String
deriving DecidableEq

/-- `req.headers().get(name)`: the first header value stored under `name`. -/
def headerValue (req : HttpRequest) (name : String) : Option String :=
  (req.headers.find? (fun p => p.1 == name)).map (fun p => p.2)

/-- The client-key extraction in `proxy_request`: the `x-forwarded-for`
header's first value, or the literal `"unknown"` when absent. -/
def clientKey (req : HttpRequest) : String :=
  (headerValue req "x-forwarded-for").getD "unknown"

/-- Embeds the outbound-request construction in `proxy_request`
(`src/proxy_handler.rs` lines 59-64): `Request::builder()` starts from an
empty header map, and the source sets only the method, the URI
`server.url + path_and_query.unwrap_or("/")`, and the body — the original
headers are never copied onto the builder. -/
def buildOutboundRequest (server : UpstreamServer) (req : HttpRequest) : OutboundRequest :=
  { method := req.method
    uri := server.url ++ req.pathAndQuery.getD "/"
    headers := []
    body := req.body }

/-- Outcome of the outbound transport call `client.request(new_req).await`:
a response, or a `hyper::Error` (connection refused, timeout, ...). -/
inductive TransportResult where
  | ok (resp : HttpResponse)
  | err (e : String)
deriving DecidableEq

/-- What the spawned request task ends with: an `Ok(response)` handed back
to hyper, an `Err(hyper::Error)` propagated by `?` (the UpstreamError
outcome), or a panic raised by an `expect`. -/
inductive PipelineOutcome where
  | response (resp : HttpResponse)
  | upstreamErr (e : String)
  | panicked (msg : String)
deriving DecidableEq

/-- `true` exactly on the `Err`-propagated UpstreamError outcome. -/
def PipelineOutcome.isUpstreamErr : PipelineOutcome → Bool
  | .upstreamErr _ => true
  | _ => false

/-- Result of one run of `proxy_request`: the outcome, the rate-limiter map
and round-robin cursor after the call, and the list of outbound forward
attempts actually issued through the HTTP client. -/
structure ProxyResult where
  outcome : PipelineOutcome
  rlMap : RequestMap
  cursor : Nat
  forwards : List OutboundRequest
deriving DecidableEq

/-- Embeds `proxy_request` from `src/proxy_handler.rs`. `uriOk` tells
whether `Request::builder().uri(s)...body(...)` succeeds for a given URI
string (hyper parses it; on failure the source's
`.expect("Failed to create the request")` panics), and `transport` is the
shared HTTP client. The pipeline: extract the client key, run the
rate-limit check, short-circuit with 429 on denial (no selection, no
forward), otherwise select a server; with no healthy server short-circuit
with 503 (no forward); otherwise build the outbound request and issue it
once, relaying the response or propagating the transport error. -/
def proxyRequest (rl : RateLimiter) (m : RequestMap) (now : Nat)
    (servers : List UpstreamServer) (cursor : Nat)
    (uriOk : String → Bool) (transport : OutboundRequest → TransportResult)
    (req : HttpRequest) : ProxyResult :=
  let ip := clientKey req
  let c := rl.check m ip now
  if c.1 = false then
    { outcome := .response ⟨429, "Too Many Requests\n"⟩, rlMap := c.2,
      cursor := cursor, forwards := [] }
  else
    let sel := selectNextServer servers cursor
    match sel.1 with
    | some server =>
      let out := buildOutboundRequest server req
      if uriOk out.uri then
        match transport out with
        | .ok resp =>
          { outcome := .response resp, rlMap := c.2, cursor := sel.2, forwards := [out] }
        | .err e =>
          { outcome := .upstreamErr e, rlMap := c.2, cursor := sel.2, forwards := [out] }
      else
        { outcome := .panicked "Failed to create the request", rlMap := c.2,
          cursor := sel.2, forwards := [] }
    | none =>
      { outcome := .response ⟨503, "Service Unavailable"⟩, rlMap := c.2,
        cursor := sel.2, forwards := [] }

/-- Claim C3, counterexample: the outbound request does not reuse the
original headers — the source sets only method, URI and body on
`Request::builder()`, so a request carrying a header is forwarded with an
empty header list. -/
theorem C3_counterexample :
    (buildOutboundRequest ⟨"http://127.0.0.1:3000", true⟩
        ⟨"GET", some "/p?q=1", [("accept", "text/html")], "b"⟩).headers ≠
      (⟨"GET", some "/p?q=1", [("accept", "text/html")], "b"⟩ : HttpRequest).headers := by
  decide

/-- Claim C3 (amended): the outbound request reuses the original method and
body, and its URI is the target's endpoint concatenated with the original
path-and-query, defaulting to "/" when absent; the original headers are NOT
reused — the outbound header list is empty. -/
theorem C3_amended (server : UpstreamServer) (req : HttpRequest) :
    (buildOutboundRequest server req).method = req.method ∧
    (buildOutboundRequest server req).body = req.body ∧
    (buildOutboundRequest server req).uri = server.url ++ req.pathAndQuery.getD "/" ∧
    (req.pathAndQuery = none → (buildOutboundRequest server req).uri = server.url ++ "/") ∧
    (buildOutboundRequest server req).headers = [] := by
  refine ⟨rfl, rfl, rfl, ?_, rfl⟩
  intro h
  simp [buildOutboundRequest, h]

/-- Witness for C3: concrete target and request with no path-and-query. -/
theorem C3_witness :
    (buildOutboundRequest ⟨"http://127.0.0.1:3000", true⟩
        ⟨"GET", none, [], ""⟩).uri = "http://127.0.0.1:3000" ++ "/" :=
  (C3_amended ⟨"http://127.0.0.1:3000", true⟩ ⟨"GET", none, [], ""⟩).2.2.2.1 rfl

/-- Claim C4, counterexample: the check admits and a healthy backend exists,
yet no forward attempt is made — the outbound URI is rejected by the builder
(target endpoint `"bad"`), so `.expect` panics and the forward count is 0,
not the claimed exactly-one. -/
theorem C4_counterexample :
    (RateLimiter.check ⟨60, 100⟩ [] (clientKey ⟨"GET", some "/", [], ""⟩) 0).1 = true ∧
    healthyServers [⟨"bad", true⟩] ≠ [] ∧
    (proxyRequest ⟨60, 100⟩ [] 0 [⟨"bad", true⟩] 0 (fun _ => false)
        (fun _ => .ok ⟨200, "OK"⟩) ⟨"GET", some "/", [], ""⟩).forwards.length ≠ 1 ∧
    (proxyRequest ⟨60, 100⟩ [] 0 [⟨"bad", true⟩] 0 (fun _ => false)
        (fun _ => .ok ⟨200, "OK"⟩) ⟨"GET", some "/", [], ""⟩).outcome =
      .panicked "Failed to create the request" := by
  refine ⟨by decide, by decide, by decide, by decide⟩

/-- Claim C4 (amended): the pipeline is a no-retry state machine — a denied
check yields the 429 "Too Many Requests\n" response with no backend
selection and no forward; an admitted check with no healthy backend yields
the 503 "Service Unavailable" response with no forward; an admitted check
with a selected backend and a constructible outbound request issues exactly
one forward to that backend and relays its response, or propagates its
transport error; if the outbound request is not constructible the task
panics with zero forwards. -/
theorem C4_amended (rl : RateLimiter) (m : RequestMap) (now : Nat)
    (servers : List UpstreamServer) (cursor : Nat)
    (uriOk : String → Bool) (transport : OutboundRequest → TransportResult)
    (req : HttpRequest) :
    ((rl.check m (clientKey req) now).1 = false →
      proxyRequest rl m now servers cursor uriOk transport req =
        { outcome := .response ⟨429, "Too Many Requests\n"⟩,
          rlMap := (rl.check m (clientKey req) now).2,
          cursor := cursor, forwards := [] }) ∧
    ((rl.check m (clientKey req) now).1 = true → healthyServers servers = [] →
      proxyRequest rl m now servers cursor uriOk transport req =
        { outcome := .response ⟨503, "Service Unavailable"⟩,
          rlMap := (rl.check m (clientKey req) now).2,
          cursor := cursor, forwards := [] }) ∧
    (∀ server, (rl.check m (clientKey req) now).1 = true →
      (selectNextServer servers cursor).1 = some server →
      (uriOk (buildOutboundRequest server req).uri = true →
        (proxyRequest rl m now servers cursor uriOk transport req).forwards =
            [buildOutboundRequest server req] ∧
        (∀ resp, transport (buildOutboundRequest server req) = .ok resp →
          (proxyRequest rl m now servers cursor uriOk transport req).outcome =
            .response resp) ∧
        (∀ e, transport (buildOutboundRequest server req) = .err e →
          (proxyRequest rl m now servers cursor uriOk transport req).outcome =
            .upstreamErr e)) ∧
      (uriOk (buildOutboundRequest server req).uri = false →
        (proxyRequest rl m now servers cursor uriOk transport req).forwards = [] ∧
        (proxyRequest rl m now servers cursor uriOk transport req).outcome =
          .panicked "Failed to create the request")) := by
  refine ⟨?_, ?_, ?_⟩
  · intro hc
    simp [proxyRequest, hc]
  · intro hc hemp
    have hsel : selectNextServer servers cursor = (none, cursor) := by
      unfold selectNextServer
      simp [hemp]
    simp [proxyRequest, hc, hsel]
  · intro server hc hsel
    refine ⟨fun hu => ⟨?_, fun resp htr => ?_, fun e htr => ?_⟩,
            fun hu => ⟨?_, ?_⟩⟩
    · cases htr : transport (buildOutboundRequest server req) <;>
        simp [proxyRequest, hc, hsel, hu, htr]
    · simp [proxyRequest, hc, hsel, hu, htr]
    · simp [proxyRequest, hc, hsel, hu, htr]
    · simp [proxyRequest, hc, hsel, hu]
    · simp [proxyRequest, hc, hsel, hu]

/-- Witness for C4: a concrete denied request (rate limiter with
`max_requests = 0`) produces the 429 response with no forward. -/
theorem C4_witness :
    proxyRequest ⟨60, 0⟩ [] 0 [⟨"http://127.0.0.1:3000", true⟩] 0
        (fun _ => true) (fun _ => .ok ⟨200, "OK"⟩) ⟨"GET", some "/", [], ""⟩ =
      { outcome := .response ⟨429, "Too Many Requests\n"⟩,
        rlMap := (RateLimiter.check ⟨60, 0⟩ []
          (clientKey ⟨"GET", some "/", [], ""⟩) 0).2,
        cursor := 0, forwards := [] } :=
  (C4_amended ⟨60, 0⟩ [] 0 [⟨"http://127.0.0.1:3000", true⟩] 0
    (fun _ => true) (fun _ => .ok ⟨200, "OK"⟩) ⟨"GET", some "/", [], ""⟩).1 (by decide)

/-- Claim C10, counterexample: with a selected backend whose outbound URI the
builder rejects, the pipeline outcome is a panic
(`expect("Failed to create the request")`), not the `Err`-propagated
UpstreamError outcome the claim states. -/
theorem C10_counterexample :
    (proxyRequest ⟨60, 100⟩ [] 0 [⟨"bad", true⟩] 0 (fun _ => false)
        (fun _ => .err "connection refused") ⟨"GET", some "/", [], ""⟩).outcome =
      .panicked "Failed to create the request" ∧
    ((proxyRequest ⟨60, 100⟩ [] 0 [⟨"bad", true⟩] 0 (fun _ => false)
        (fun _ => .err "connection refused") ⟨"GET", some "/", [], ""⟩).outcome).isUpstreamErr
      = false := by
  refine ⟨by decide, by decide⟩

/-- Claim C10 (amended): a transport failure is surfaced as the UpstreamError
pipeline outcome (the `Err` propagated by `?`), but a forwarded request that
cannot be constructed instead panics the request task via
`expect("Failed to create the request")` — it is not surfaced as the
UpstreamError outcome used for transport failures. -/
theorem C10_amended (rl : RateLimiter) (m : RequestMap) (now : Nat)
    (servers : List UpstreamServer) (cursor : Nat)
    (uriOk : String → Bool) (transport : OutboundRequest → TransportResult)
    (req : HttpRequest) (server : UpstreamServer)
    (hc : (rl.check m (clientKey req) now).1 = true)
    (hsel : (selectNextServer servers cursor).1 = some server) :
    (∀ e, uriOk (buildOutboundRequest server req).uri = true →
      transport (buildOutboundRequest server req) = .err e →
      (proxyRequest rl m now servers cursor uriOk transport req).outcome =
        .upstreamErr e) ∧
    (uriOk (buildOutboundRequest server req).uri = false →
      (proxyRequest rl m now servers cursor uriOk transport req).outcome =
          .panicked "Failed to create the request" ∧
      ((proxyRequest rl m now servers cursor uriOk transport req).outcome).isUpstreamErr
        = false) := by
  constructor
  · intro e hu htr
    simp [proxyRequest, hc, hsel, hu, htr]
  · intro hu
    constructor <;> simp [proxyRequest, hc, hsel, hu, PipelineOutcome.isUpstreamErr]

/-- Witness for C10: a concrete refused connection is relayed as the
UpstreamError outcome. -/
theorem C10_witness :
    (proxyRequest ⟨60, 100⟩ [] 0 [⟨"http://127.0.0.1:3000", true⟩] 0
        (fun _ => true) (fun _ => .err "connection refused")
        ⟨"GET", some "/", [], ""⟩).outcome = .upstreamErr "connection refused" :=
  (C10_amended ⟨60, 100⟩ [] 0 [⟨"http://127.0.0.1:3000", true⟩] 0
      (fun _ => true) (fun _ => .err "connection refused")
      ⟨"GET", some "/", [], ""⟩ ⟨"http://127.0.0.1:3000", true⟩
      (by decide) (by decide)).1 "connection refused" rfl rfl

/-- Embeds `UpstreamServer::check_health` from `src/upstream.rs`.
`uriParses` says whether `Uri::try_from(&self.url)` succeeds (hyper parses
the string); on failure the source's `.expect("Failed to parse URI")`
panics, modelled as `Except.error`. Otherwise the probe's outcome decides
the new flag: a response sets `is_healthy` to `status == 200`, a transport
error sets it to `false`. Returns the new value of the health flag. -/
def checkHealth (uriParses : Bool) (probe : TransportResult) : Except String Bool :=
  if uriParses then
    match probe with
    | .ok resp => .ok (resp.status == 200)
    | .err _ => .ok false
  else
    .error "Failed to parse URI"

/-- The health flag a completed probe writes: `status == 200` on a response,
`false` on a transport error. -/
def probeHealthFlag : TransportResult → Bool
  | .ok resp => resp.status == 200
  | .err _ => false

/-- One pass of the `for server in servers_read.iter()` body of
`health_check_loop`: probe every server sequentially, updating each flag; a
panic inside `check_health` aborts the pass (and with it the loop task). -/
def healthCheckPass (uriParses : String → Bool) (probe : String → TransportResult) :
    List UpstreamServer → Except String (List UpstreamServer)
  | [] => .ok []
  | s :: rest =>
    match checkHealth (uriParses s.url) (probe s.url) with
    | .ok h =>
      match healthCheckPass uriParses probe rest with
      | .ok updated => .ok ({ url := s.url, isHealthy := h } :: updated)
      | .error msg => .error msg
    | .error msg => .error msg

/-- The tick schedule of the `tokio::time::interval(Duration::from_secs(20))`
driving `health_check_loop`, modelled from tokio's documented semantics: an
interval created with period `p` yields its first tick immediately and tick
`n` at time `p * n`. -/
def intervalTickTime (period n : Nat) : Nat := period * n

/-- Start time (in seconds from loop start) of the `n`-th probe pass of
`health_check_loop`: the pass runs right after tick `n` of the 20-second
interval. -/
def healthCheckPassStart (n : Nat) : Nat := intervalTickTime 20 n

/-- Claim C5, counterexample: probing a target whose URL hyper cannot parse
panics (`expect("Failed to parse URI")`), and that panic aborts the
health-check pass — the loop task does not survive it. -/
theorem C5_counterexample :
    checkHealth false (.ok ⟨200, "OK"⟩) = .error "Failed to parse URI" ∧
    healthCheckPass (fun _ => false) (fun _ => .ok ⟨200, "OK"⟩)
        [⟨"bad uri", true⟩] = .error "Failed to parse URI" := by
  refine ⟨rfl, rfl⟩

/-- Claim C5 (amended): for targets whose configured URL parses as a URI, a
probe never panics — its only effect is the health-flag update — and a whole
pass of `health_check_loop` completes for every combination of probe
outcomes, transport failures included; but a target with an unparseable URL
makes the probe panic via `expect`, terminating the loop task. -/
theorem C5_amended (uriParses : String → Bool) (probe : String → TransportResult)
    (servers : List UpstreamServer) (h : ∀ s ∈ servers, uriParses s.url = true) :
    healthCheckPass uriParses probe servers =
      .ok (servers.map (fun s => ⟨s.url, probeHealthFlag (probe s.url)⟩)) := by
  induction servers with
  | nil => rfl
  | cons s rest ih =>
    have hs : uriParses s.url = true := h s (List.mem_cons_self _ _)
    have hr := ih (fun t ht => h t (List.mem_cons_of_mem _ ht))
    cases hp : probe s.url <;>
      simp [healthCheckPass, checkHealth, hs, hr, hp, probeHealthFlag]

/-- Witness for C5: a pass over one parseable target whose probe hits a
refused connection completes and marks the target unhealthy. -/
theorem C5_witness :
    healthCheckPass (fun _ => true) (fun _ => .err "connection refused")
        [⟨"http://127.0.0.1:3000", true⟩] =
      .ok [⟨"http://127.0.0.1:3000", false⟩] :=
  C5_amended (fun _ => true) (fun _ => .err "connection refused")
    [⟨"http://127.0.0.1:3000", true⟩] (by decide)

/-- Claim C6: for every probe outcome, the health flag is set to `true` iff
the response status is 200; any other status, and any transport error, sets
it to `false`. -/
theorem C6_flag_iff_200 (pr : TransportResult) :
    (checkHealth true pr = .ok true ↔ ∃ resp, pr = .ok resp ∧ resp.status = 200) ∧
    (∀ resp, resp.status ≠ 200 → checkHealth true (.ok resp) = .ok false) ∧
    (∀ e, checkHealth true (.err e) = .ok false) := by
  refine ⟨?_, ?_, ?_⟩
  · cases pr with
    | ok resp => simp [checkHealth]
    | err e => simp [checkHealth]
  · intro resp hne
    simp [checkHealth, hne]
  · intro e
    rfl

/-- Witness for C6: status 200 flips the flag to true; status 500 and a
refused connection flip it to false. -/
theorem C6_witness :
    checkHealth true (.ok ⟨200, "OK"⟩) = .ok true ∧
    checkHealth true (.ok ⟨500, "boom"⟩) = .ok false ∧
    checkHealth true (.err "connection refused") = .ok false :=
  ⟨(C6_flag_iff_200 (.ok ⟨200, "OK"⟩)).1.mpr ⟨⟨200, "OK"⟩, rfl, rfl⟩,
   (C6_flag_iff_200 (.ok ⟨500, "boom"⟩)).2.1 ⟨500, "boom"⟩ (by decide),
   (C6_flag_iff_200 (.err "connection refused")).2.2 "connection refused"⟩

/-- Claim C9, counterexample: the first tick of the 20-second tokio interval
completes immediately, so the first probe pass starts at time 0, not after
the first 20-second period as the claim states (the source's own doc comment
announces an immediate startup check). -/
theorem C9_counterexample :
    healthCheckPassStart 0 = 0 ∧ healthCheckPassStart 0 ≠ 20 := by
  refine ⟨rfl, by decide⟩

/-- Claim C9 (amended): `health_check_loop` probes on a fixed 20-second
period, but the first probe pass fires immediately at loop start (tokio's
`interval` completes its first tick at once); pass `n` starts at `20 * n`
seconds, consecutive passes 20 seconds apart. -/
theorem C9_amended (n : Nat) :
    healthCheckPassStart 0 = 0 ∧
    healthCheckPassStart n = 20 * n ∧
    healthCheckPassStart (n + 1) - healthCheckPassStart n = 20 := by
  refine ⟨rfl, rfl, ?_⟩
  simp [healthCheckPassStart, intervalTickTime, Nat.mul_succ]

end LoadBalancer
